import Mathlib

/-!
Shallow embedding of the filter-state reconciliation and derived-view
recomputation core of `final_carbon.py` (a Dash carbon-emissions dashboard).

Data rows of the cleaned dataframe become `Record`s; a Dash multi-select
dropdown value (which is either `null` or a list) becomes `Selection α :=
Option (List α)`, with Python truthiness captured by `Selection.active`.
The main callback `update_dashboard` is embedded as a pure function from the
dataset, the triggering input id and the four current selections to the
structured outputs it returns; the figure objects themselves are out of
scope, but the aggregates that drive them (per-country totals, top-10 rows,
trend rows, table rows) are kept.  Emissions values are modelled as exact
rationals and the pandas `.round(3)` as rounding to the nearest multiple of
1/1000.  pandas `groupby(..., sort=True)` sorts group keys ascending and
`nlargest`, with its default tie policy, is a stable descending sort
followed by `take`; both are modelled with the stable `List.mergeSort`.
-/

namespace CarbonDash

/-- One row of the cleaned dataframe: (Country, Year, Sector, Subsector,
Emissions), with Emissions in billions modelled as an exact rational. -/
structure Record where
  country : String
  year : Int
  sector : String
  subsector : String
  emissions : ℚ
deriving DecidableEq, Repr

/-- A Dash dropdown `value`: either `null` (`none`) or a list of values. -/
abbrev Selection (α : Type) := Option (List α)

/-- Python truthiness of a dropdown value: `None` and `[]` are both falsy. -/
def Selection.active : Selection α → Bool
  | none => false
  | some l => !l.isEmpty

/-- The list of selected values (`None` carries no values). -/
def Selection.vals : Selection α → List α
  | none => []
  | some l => l

/-- The four dropdown selections feeding `update_dashboard`. -/
structure FilterState where
  countries : Selection String
  years : Selection Int
  sectors : Selection String
  subsectors : Selection String

/-- Lines 330-340 of `final_carbon.py`: starting from a copy of `df`, apply
each of the four `isin` filters only when the corresponding selection is
truthy (non-`None` and non-empty). -/
def applyFilters (df : List Record) (fs : FilterState) : List Record :=
  let d1 := if fs.countries.active then
    df.filter (fun r => decide (r.country ∈ fs.countries.vals)) else df
  let d2 := if fs.years.active then
    d1.filter (fun r => decide (r.year ∈ fs.years.vals)) else d1
  let d3 := if fs.sectors.active then
    d2.filter (fun r => decide (r.sector ∈ fs.sectors.vals)) else d2
  let d4 := if fs.subsectors.active then
    d3.filter (fun r => decide (r.subsector ∈ fs.subsectors.vals)) else d3
  d4

/-- pandas `.round(3)`: round to the nearest multiple of 1/1000 (tie
behaviour on binary floats is a float artefact; modelled with `round`). -/
def round3 (x : ℚ) : ℚ := ((round (x * 1000) : ℤ) : ℚ) / 1000

/-- `dff["Emissions"].sum()` (the sum of an empty column is 0). -/
def sumEmissions (df : List Record) : ℚ := (df.map Record.emissions).sum

/-- Line 343: `total_emissions = dff["Emissions"].sum().round(3)`. -/
def totalEmissions (df : List Record) : ℚ := round3 (sumEmissions df)

/-- Line 344: `num_countries = dff["Country"].nunique()`. -/
def numCountries (df : List Record) : Nat := (df.map Record.country).dedup.length

/-- Line 346: `map_df = dff.groupby("Country")[["Emissions"]].sum().reset_index()`;
pandas `groupby` sorts the group keys ascending, and each group's value is
the sum of Emissions over the rows carrying that key. -/
def groupCountrySum (df : List Record) : List (String × ℚ) :=
  (((df.map Record.country).dedup).mergeSort (fun a b => decide (a ≤ b))).map
    (fun c => (c, sumEmissions (df.filter (fun r => decide (r.country = c)))))

/-- Line 386: `top_countries = map_df.nlargest(10, "Emissions")`: a stable
descending sort on the Emissions column followed by taking the first `n`
rows (pandas keeps the first-occurring rows among ties). -/
def nlargestEmissions (n : Nat) (rows : List (String × ℚ)) : List (String × ℚ) :=
  (rows.mergeSort (fun a b => decide (b.2 ≤ a.2))).take n

/-- `groupby("Year")[["Emissions"]].sum().reset_index()` (lines 425, 444). -/
def groupYearSum (df : List Record) : List (Int × ℚ) :=
  (((df.map Record.year).dedup).mergeSort (fun a b => decide (a ≤ b))).map
    (fun y => (y, sumEmissions (df.filter (fun r => decide (r.year = y)))))

/-- `groupby(["Year", "Country"])[["Emissions"]].sum().reset_index()`
(line 434; keys sorted lexicographically). -/
def groupYearCountrySum (df : List Record) : List ((Int × String) × ℚ) :=
  (((df.map (fun r => (r.year, r.country))).dedup).mergeSort
      (fun a b => decide (a.1 < b.1 ∨ (a.1 = b.1 ∧ a.2 ≤ b.2)))).map
    (fun k => (k, sumEmissions (df.filter (fun r => decide ((r.year, r.country) = k)))))

/-- The dataframe behind the line chart: rows keyed by Year alone, or by
(Year, Country) in the multi-country branch. -/
inductive TrendSeries where
  | byYear (rows : List (Int × ℚ))
  | byYearCountry (rows : List ((Int × String) × ℚ))
deriving DecidableEq, Repr

/-- Number of rows of the trend dataframe. -/
def TrendSeries.numRows : TrendSeries → Nat
  | .byYear rows => rows.length
  | .byYearCountry rows => rows.length

/-- Lines 423-451: line-chart data selection.  The source tests the Python
truthiness of `selected_countries` and then its length. -/
def trendSeries (dff : List Record) (selectedCountries : Selection String) :
    TrendSeries :=
  if selectedCountries.active && decide (selectedCountries.vals.length = 1) then
    let countryName := selectedCountries.vals.headD ""
    .byYear (groupYearSum (dff.filter (fun r => decide (r.country = countryName))))
  else if selectedCountries.active && decide (1 < selectedCountries.vals.length) then
    .byYearCountry (groupYearCountrySum
      (dff.filter (fun r => decide (r.country ∈ selectedCountries.vals))))
  else
    .byYear (groupYearSum dff)

/-- Lines 469-474: table rows sorted by Emissions descending, Emissions
rounded to 3 decimals; an empty subset yields the empty row list.  (The
source's `sort_values` is modelled as a stable descending sort.) -/
def tableRecords (dff : List Record) : List Record :=
  if dff.isEmpty then []
  else (dff.mergeSort (fun a b => decide (b.emissions ≤ a.emissions))).map
    (fun r => { r with emissions := round3 r.emissions })

/-- The outputs of the main callback that are in scope: the three summary
metrics, the aggregates behind the figures, the table data, and the four
echoed dropdown values (the rendered figure objects are out of scope). -/
structure DashOutput where
  totalEmissions : ℚ
  numCountries : Nat
  avgEmissions : ℚ
  mapAgg : List (String × ℚ)
  top10 : List (String × ℚ)
  trend : TrendSeries
  tableRows : List Record
  countries : Selection String
  years : Selection Int
  sectors : Selection String
  subsectors : Selection String
deriving DecidableEq, Repr

/-- Lines 319-490: the main callback `update_dashboard`.  `triggeredId` is
the component id extracted from `callback_context` (`none` when nothing
triggered).  Lines 324-328 clear all four selections to empty lists when
the reset button was the trigger. -/
def update_dashboard (df : List Record) (triggeredId : Option String)
    (selectedCountries : Selection String) (selectedYears : Selection Int)
    (selectedSectors : Selection String) (selectedSubsectors : Selection String) :
    DashOutput :=
  let selectedCountries :=
    if triggeredId = some "reset-button" then some [] else selectedCountries
  let selectedYears :=
    if triggeredId = some "reset-button" then some [] else selectedYears
  let selectedSectors :=
    if triggeredId = some "reset-button" then some [] else selectedSectors
  let selectedSubsectors :=
    if triggeredId = some "reset-button" then some [] else selectedSubsectors
  let dff := applyFilters df
    ⟨selectedCountries, selectedYears, selectedSectors, selectedSubsectors⟩
  let total := totalEmissions dff
  let num := numCountries dff
  let avg := if num > 0 then round3 (total / (num : ℚ)) else 0
  let mapDf := groupCountrySum dff
  let topCountries := nlargestEmissions 10 mapDf
  let trend := trendSeries dff selectedCountries
  let tableData := tableRecords dff
  { totalEmissions := total, numCountries := num, avgEmissions := avg,
    mapAgg := mapDf, top10 := topCountries, trend := trend,
    tableRows := tableData, countries := selectedCountries,
    years := selectedYears, sectors := selectedSectors,
    subsectors := selectedSubsectors }

/-- The spec's View Recomputer: the main callback run on an ordinary
(non-reset) trigger with the given Filter State. -/
def recompute (df : List Record) (fs : FilterState) : DashOutput :=
  update_dashboard df none fs.countries fs.years fs.sectors fs.subsectors

/-- One entry of `clickData["points"]`.  A field the chart does not supply
is `none`; a present-but-empty string is `some ""` (both are falsy in the
source's checks; a missing key raises `KeyError`, which the source's
`except` turns into `no_update`, so `none` also covers that path). -/
structure ClickPoint where
  location : Option String := none
  x : Option String := none
  id : Option String := none
  label : Option String := none
  text : Option String := none
deriving DecidableEq, Repr

/-- A `clickData` payload. -/
structure ClickData where
  points : List ClickPoint
deriving DecidableEq, Repr

/-- A Dash callback either returns the `no_update` sentinel (state
unchanged) or a new dropdown value. -/
inductive CallbackResult where
  | noUpdate
  | update (v : List String)
deriving DecidableEq, Repr

/-- Python truthiness of an optional string (`None` and `""` are falsy). -/
def truthy : Option String → Bool
  | none => false
  | some s => !s.isEmpty

/-- Lines 192-204 (identical at 225-237 and 276-288): toggle one value in
the current selection: `remove` the first occurrence if present, else
`append` at the end; a `None` selection is first replaced by `[]`. -/
def toggleValue (current : Option (List String)) (v : String) : List String :=
  let cur := current.getD []
  if v ∈ cur then cur.erase v else cur ++ [v]

/-- Lines 183-207: a map click toggles the clicked country (read from the
point's `location` field). -/
def update_country_from_map (clickData : Option ClickData)
    (currentCountries : Option (List String)) : CallbackResult :=
  match clickData with
  | none => .noUpdate
  | some cd =>
    match cd.points with
    | [] => .noUpdate
    | p :: _ =>
      match p.location with
      | none => .noUpdate
      | some clickedCountry =>
        if clickedCountry = "" then .noUpdate
        else .update (toggleValue currentCountries clickedCountry)

/-- Lines 216-240: a bar click toggles the clicked country (read from the
point's `x` field). -/
def update_country_from_bar (clickData : Option ClickData)
    (currentCountries : Option (List String)) : CallbackResult :=
  match clickData with
  | none => .noUpdate
  | some cd =>
    match cd.points with
    | [] => .noUpdate
    | p :: _ =>
      match p.x with
      | none => .noUpdate
      | some clickedCountry =>
        if clickedCountry = "" then .noUpdate
        else .update (toggleValue currentCountries clickedCountry)

/-- Lines 256-274: ordered fallback extracting a sector from a treemap
click point: the first `/`-separated segment of a truthy `id`, else a
truthy `label`, else a truthy `text`, else nothing. -/
def resolveTreemapSector (p : ClickPoint) : Option String :=
  if truthy p.id then some (((p.id.getD "").splitOn "/").headD "")
  else if truthy p.label then p.label
  else if truthy p.text then p.text
  else none

/-- Lines 249-291: a treemap click toggles the resolved sector. -/
def update_sector_from_treemap (clickData : Option ClickData)
    (currentSectors : Option (List String)) : CallbackResult :=
  match clickData with
  | none => .noUpdate
  | some cd =>
    match cd.points with
    | [] => .noUpdate
    | p :: _ =>
      match resolveTreemapSector p with
      | none => .noUpdate
      | some sector =>
        if sector = "" then .noUpdate
        else .update (toggleValue currentSectors sector)

/-- The value the map callback would act on (`none` when the payload or its
point list is missing/empty). -/
def mapClickedCountry : Option ClickData → Option String
  | none => none
  | some cd =>
    match cd.points with
    | [] => none
    | p :: _ => p.location

/-- The value the bar callback would act on. -/
def barClickedCountry : Option ClickData → Option String
  | none => none
  | some cd =>
    match cd.points with
    | [] => none
    | p :: _ => p.x

/-- The sector the treemap callback would act on, after the ordered
fallback. -/
def treemapClickedSector : Option ClickData → Option String
  | none => none
  | some cd =>
    match cd.points with
    | [] => none
    | p :: _ => resolveTreemapSector p

end CarbonDash

namespace CarbonDash

theorem Selection.active_iff {α : Type} (s : Selection α) :
    s.active = true ↔ s.vals ≠ [] := by
  cases s with
  | none => simp [Selection.active, Selection.vals]
  | some l => cases l <;> simp [Selection.active, Selection.vals]

theorem recompute_totalEmissions (df : List Record) (fs : FilterState) :
    (recompute df fs).totalEmissions = totalEmissions (applyFilters df fs) := rfl

theorem recompute_numCountries (df : List Record) (fs : FilterState) :
    (recompute df fs).numCountries = numCountries (applyFilters df fs) := rfl

theorem recompute_avgEmissions (df : List Record) (fs : FilterState) :
    (recompute df fs).avgEmissions =
      if numCountries (applyFilters df fs) > 0 then
        round3 (totalEmissions (applyFilters df fs) /
          (numCountries (applyFilters df fs) : ℚ))
      else 0 := rfl

theorem recompute_mapAgg (df : List Record) (fs : FilterState) :
    (recompute df fs).mapAgg = groupCountrySum (applyFilters df fs) := rfl

theorem recompute_top10 (df : List Record) (fs : FilterState) :
    (recompute df fs).top10 =
      nlargestEmissions 10 (groupCountrySum (applyFilters df fs)) := rfl

theorem recompute_trend (df : List Record) (fs : FilterState) :
    (recompute df fs).trend = trendSeries (applyFilters df fs) fs.countries := rfl

theorem recompute_tableRows (df : List Record) (fs : FilterState) :
    (recompute df fs).tableRows = tableRecords (applyFilters df fs) := rfl

/-- A fully inactive filter state leaves the dataset unchanged. -/
theorem applyFilters_none (df : List Record) :
    applyFilters df ⟨none, none, none, none⟩ = df := rfl

/-- Empty-list selections are just as inactive as absent ones. -/
theorem applyFilters_some_nil (df : List Record) :
    applyFilters df ⟨some [], some [], some [], some []⟩ = df := rfl

/-- Membership through one conditional `isin` filtering step. -/
theorem mem_filterStep {α : Type} [DecidableEq α] (l : List Record)
    (s : Selection α) (proj : Record → α) (r : Record) :
    (r ∈ if s.active then l.filter (fun x => decide (proj x ∈ s.vals)) else l) ↔
      r ∈ l ∧ (s.vals ≠ [] → proj r ∈ s.vals) := by
  by_cases h : s.active = true
  · have hv := (Selection.active_iff s).mp h
    simp [h, List.mem_filter, hv]
  · have hv : s.vals = [] := by
      by_contra hne
      exact h ((Selection.active_iff s).mpr hne)
    simp [h, hv]

/-- **C1** Conjunctive filtering: a record is in the filtered subset iff it
is in the dataset and, for each dimension whose selection is non-empty, its
value for that dimension is in the selection; an empty or absent selection
(`vals = []`) imposes no constraint, so empty and unconstrained are
indistinguishable in effect. -/
theorem C1_conjunctive_filtering (df : List Record) (fs : FilterState) (r : Record) :
    r ∈ applyFilters df fs ↔ r ∈ df ∧
      (fs.countries.vals ≠ [] → r.country ∈ fs.countries.vals) ∧
      (fs.years.vals ≠ [] → r.year ∈ fs.years.vals) ∧
      (fs.sectors.vals ≠ [] → r.sector ∈ fs.sectors.vals) ∧
      (fs.subsectors.vals ≠ [] → r.subsector ∈ fs.subsectors.vals) := by
  unfold applyFilters
  simp only [mem_filterStep]
  tauto

theorem C1_witness :
    (⟨"USA", 2020, "Energy", "Power", 10⟩ : Record) ∈
        applyFilters [⟨"USA", 2020, "Energy", "Power", 10⟩,
          ⟨"China", 2020, "Energy", "Power", 20⟩]
          ⟨some ["USA"], none, none, none⟩ ↔
      (⟨"USA", 2020, "Energy", "Power", 10⟩ : Record) ∈
          [(⟨"USA", 2020, "Energy", "Power", 10⟩ : Record),
            ⟨"China", 2020, "Energy", "Power", 20⟩] ∧
        ((Selection.vals (some ["USA"]) ≠ [] → "USA" ∈ Selection.vals (some ["USA"])) ∧
          (Selection.vals (none : Selection Int) ≠ [] →
            (2020 : Int) ∈ Selection.vals (none : Selection Int)) ∧
          (Selection.vals (none : Selection String) ≠ [] →
            "Energy" ∈ Selection.vals (none : Selection String)) ∧
          (Selection.vals (none : Selection String) ≠ [] →
            "Power" ∈ Selection.vals (none : Selection String))) :=
  C1_conjunctive_filtering _ ⟨some ["USA"], none, none, none⟩ _

/-- **C10** Frame property: when the trigger is not the reset button, the
main callback echoes all four selections back unchanged. -/
theorem C10_frame_selections (df : List Record) (t : Option String)
    (sc : Selection String) (sy : Selection Int) (ss sss : Selection String)
    (h : t ≠ some "reset-button") :
    (update_dashboard df t sc sy ss sss).countries = sc ∧
    (update_dashboard df t sc sy ss sss).years = sy ∧
    (update_dashboard df t sc sy ss sss).sectors = ss ∧
    (update_dashboard df t sc sy ss sss).subsectors = sss := by
  simp [update_dashboard, h]

theorem C10_witness :
    (some "country-dropdown" : Option String) ≠ some "reset-button" ∧
    ((update_dashboard [] (some "country-dropdown") (some ["USA"]) (some [2020])
        (some ["Energy"]) none).countries = some ["USA"] ∧
      (update_dashboard [] (some "country-dropdown") (some ["USA"]) (some [2020])
        (some ["Energy"]) none).years = some [2020] ∧
      (update_dashboard [] (some "country-dropdown") (some ["USA"]) (some [2020])
        (some ["Energy"]) none).sectors = some ["Energy"] ∧
      (update_dashboard [] (some "country-dropdown") (some ["USA"]) (some [2020])
        (some ["Energy"]) none).subsectors = none) :=
  ⟨by decide, C10_frame_selections [] (some "country-dropdown") (some ["USA"])
    (some [2020]) (some ["Energy"]) none (by decide)⟩

/-- **C7** Reset is absorbing: a reset-triggered cycle clears all four
selections to empty (unconstrained) in the same step, its full output
equals a cycle run on the all-empty filter state, and every derived
aggregate also equals the one computed for the initial all-`None` state. -/
theorem C7_reset_absorbing (df : List Record) (sc : Selection String)
    (sy : Selection Int) (ss sss : Selection String) :
    update_dashboard df (some "reset-button") sc sy ss sss =
      update_dashboard df none (some []) (some []) (some []) (some []) ∧
    (update_dashboard df (some "reset-button") sc sy ss sss).countries = some [] ∧
    (update_dashboard df (some "reset-button") sc sy ss sss).years = some [] ∧
    (update_dashboard df (some "reset-button") sc sy ss sss).sectors = some [] ∧
    (update_dashboard df (some "reset-button") sc sy ss sss).subsectors = some [] ∧
    (update_dashboard df (some "reset-button") sc sy ss sss).totalEmissions =
      (recompute df ⟨none, none, none, none⟩).totalEmissions ∧
    (update_dashboard df (some "reset-button") sc sy ss sss).numCountries =
      (recompute df ⟨none, none, none, none⟩).numCountries ∧
    (update_dashboard df (some "reset-button") sc sy ss sss).avgEmissions =
      (recompute df ⟨none, none, none, none⟩).avgEmissions ∧
    (update_dashboard df (some "reset-button") sc sy ss sss).mapAgg =
      (recompute df ⟨none, none, none, none⟩).mapAgg ∧
    (update_dashboard df (some "reset-button") sc sy ss sss).top10 =
      (recompute df ⟨none, none, none, none⟩).top10 ∧
    (update_dashboard df (some "reset-button") sc sy ss sss).trend =
      (recompute df ⟨none, none, none, none⟩).trend ∧
    (update_dashboard df (some "reset-button") sc sy ss sss).tableRows =
      (recompute df ⟨none, none, none, none⟩).tableRows := by
  refine ⟨rfl, rfl, rfl, rfl, rfl, rfl, rfl, rfl, rfl, rfl, ?_, rfl⟩
  show trendSeries (applyFilters df ⟨some [], some [], some [], some []⟩) (some []) =
    trendSeries (applyFilters df ⟨none, none, none, none⟩) none
  rfl

theorem C7_witness :
    update_dashboard [⟨"USA", 2020, "Energy", "Power", 10⟩] (some "reset-button")
        (some ["USA"]) (some [2020]) none (some ["Power"]) =
      update_dashboard [⟨"USA", 2020, "Energy", "Power", 10⟩] none
        (some []) (some []) (some []) (some []) :=
  (C7_reset_absorbing [⟨"USA", 2020, "Energy", "Power", 10⟩]
    (some ["USA"]) (some [2020]) none (some ["Power"])).1

/-- **C6** The average is the (already rounded) total divided by the
distinct-country count, rounded to 3 decimals, whenever the count is
positive; it is 0 (not an error) when the count is 0. -/
theorem C6_average_per_country (df : List Record) (fs : FilterState) :
    (0 < (recompute df fs).numCountries →
      (recompute df fs).avgEmissions =
        round3 ((recompute df fs).totalEmissions /
          ((recompute df fs).numCountries : ℚ))) ∧
    ((recompute df fs).numCountries = 0 → (recompute df fs).avgEmissions = 0) := by
  constructor
  · intro h
    rw [recompute_numCountries] at h
    rw [recompute_avgEmissions, recompute_totalEmissions, recompute_numCountries,
      if_pos h]
  · intro h
    rw [recompute_numCountries] at h
    rw [recompute_avgEmissions, h]
    simp

theorem C6_witness :
    0 < (recompute [⟨"USA", 2020, "Energy", "Power", 10⟩]
        ⟨none, none, none, none⟩).numCountries ∧
    (recompute [⟨"USA", 2020, "Energy", "Power", 10⟩]
        ⟨none, none, none, none⟩).avgEmissions =
      round3 ((recompute [⟨"USA", 2020, "Energy", "Power", 10⟩]
          ⟨none, none, none, none⟩).totalEmissions /
        ((recompute [⟨"USA", 2020, "Energy", "Power", 10⟩]
          ⟨none, none, none, none⟩).numCountries : ℚ)) :=
  ⟨by decide, (C6_average_per_country [⟨"USA", 2020, "Energy", "Power", 10⟩]
    ⟨none, none, none, none⟩).1 (by decide)⟩

/-- **C5** Emptiness policy: when the filtered subset is empty every
aggregate degrades gracefully: total 0, country count 0, average 0, and
the top-10 rows, table rows and trend rows are all empty. -/
theorem C5_empty_subset (df : List Record) (fs : FilterState)
    (h : applyFilters df fs = []) :
    (recompute df fs).totalEmissions = 0 ∧
    (recompute df fs).numCountries = 0 ∧
    (recompute df fs).avgEmissions = 0 ∧
    (recompute df fs).top10 = [] ∧
    (recompute df fs).tableRows = [] ∧
    (recompute df fs).trend.numRows = 0 := by
  have htot : (recompute df fs).totalEmissions = 0 := by
    rw [recompute_totalEmissions, h]
    simp [totalEmissions, sumEmissions, round3]
  have hnum : (recompute df fs).numCountries = 0 := by
    rw [recompute_numCountries, h]
    rfl
  refine ⟨htot, hnum, ?_, ?_, ?_, ?_⟩
  · rw [recompute_avgEmissions, h]
    simp [numCountries]
  · rw [recompute_top10, h]
    simp [nlargestEmissions, groupCountrySum]
  · rw [recompute_tableRows, h]
    rfl
  · rw [recompute_trend, h]
    unfold trendSeries
    split
    · simp [TrendSeries.numRows, groupYearSum]
    · split
      · simp [TrendSeries.numRows, groupYearCountrySum]
      · simp [TrendSeries.numRows, groupYearSum]

theorem C5_witness :
    applyFilters [⟨"USA", 2020, "Energy", "Power", 10⟩]
        ⟨some ["France"], none, none, none⟩ = [] ∧
    (recompute [⟨"USA", 2020, "Energy", "Power", 10⟩]
        ⟨some ["France"], none, none, none⟩).totalEmissions = 0 ∧
    (recompute [⟨"USA", 2020, "Energy", "Power", 10⟩]
        ⟨some ["France"], none, none, none⟩).numCountries = 0 ∧
    (recompute [⟨"USA", 2020, "Energy", "Power", 10⟩]
        ⟨some ["France"], none, none, none⟩).avgEmissions = 0 ∧
    (recompute [⟨"USA", 2020, "Energy", "Power", 10⟩]
        ⟨some ["France"], none, none, none⟩).top10 = [] ∧
    (recompute [⟨"USA", 2020, "Energy", "Power", 10⟩]
        ⟨some ["France"], none, none, none⟩).tableRows = [] ∧
    (recompute [⟨"USA", 2020, "Energy", "Power", 10⟩]
        ⟨some ["France"], none, none, none⟩).trend.numRows = 0 :=
  ⟨by decide, C5_empty_subset [⟨"USA", 2020, "Energy", "Power", 10⟩]
    ⟨some ["France"], none, none, none⟩ (by decide)⟩

/-- **C2, counterexample** Toggling a value that is not the last entry of
the selection and toggling it again does not return the selection to its
original list value: the value moves to the end (`remove` deletes it in
place, `append` re-adds it at the end). -/
theorem C2_counterexample :
    toggleValue (some (toggleValue (some ["USA", "China"]) "USA")) "USA" ≠
      ["USA", "China"] := by decide

/-- **C2, amended** For a duplicate-free selection, toggling the same
non-empty value twice yields a selection with exactly the same members as
the original (so the same filtering effect), though the toggled value may
move to the end of the list. -/
theorem C2_toggle_toggle_same_members (cur : List String) (v x : String)
    (hv : v ≠ "") (hnd : cur.Nodup) :
    (x ∈ toggleValue (some (toggleValue (some cur) v)) v ↔ x ∈ cur) := by
  unfold toggleValue
  simp only [Option.getD_some]
  by_cases hmem : v ∈ cur
  · rw [if_pos hmem]
    have hve : v ∉ cur.erase v := fun hc =>
      absurd rfl (hnd.mem_erase_iff.mp hc).1
    rw [if_neg hve]
    simp only [List.mem_append, List.mem_singleton, hnd.mem_erase_iff]
    constructor
    · rintro (⟨-, hx⟩ | rfl)
      · exact hx
      · exact hmem
    · intro hx
      by_cases hxv : x = v
      · exact Or.inr hxv
      · exact Or.inl ⟨hxv, hx⟩
  · rw [if_neg hmem]
    have hv2 : v ∈ cur ++ [v] := by simp
    rw [if_pos hv2, List.erase_append_right _ hmem, List.erase_cons_head,
      List.append_nil]

theorem C2_witness :
    ("USA" : String) ≠ "" ∧ (["USA", "China"] : List String).Nodup ∧
    ("China" ∈ toggleValue (some (toggleValue (some ["USA", "China"]) "USA")) "USA" ↔
      "China" ∈ (["USA", "China"] : List String)) :=
  ⟨by decide, by decide,
    C2_toggle_toggle_same_members ["USA", "China"] "USA" "China"
      (by decide) (by decide)⟩

/-- **C9** Any click payload whose resolved value is missing or empty (a
missing payload, an empty point list, a missing or empty field; for the
treemap, after the ordered id/label/text fallback) makes the callback
return the `no_update` sentinel — which is distinct from an update to an
empty selection — so the Filter State is left untouched. -/
theorem C9_malformed_click_noop (cd : Option ClickData)
    (curC curS : Option (List String)) :
    ((mapClickedCountry cd = none ∨ mapClickedCountry cd = some "") →
      update_country_from_map cd curC = .noUpdate) ∧
    ((barClickedCountry cd = none ∨ barClickedCountry cd = some "") →
      update_country_from_bar cd curC = .noUpdate) ∧
    ((treemapClickedSector cd = none ∨ treemapClickedSector cd = some "") →
      update_sector_from_treemap cd curS = .noUpdate) ∧
    (∀ l : List String, (CallbackResult.noUpdate : CallbackResult) ≠ .update l) := by
  refine ⟨?_, ?_, ?_, fun l h => CallbackResult.noConfusion h⟩
  · intro h
    match cd with
    | none => rfl
    | some ⟨[]⟩ => rfl
    | some ⟨p :: ps⟩ =>
      simp only [mapClickedCountry] at h
      rcases h with h | h <;> simp [update_country_from_map, h]
  · intro h
    match cd with
    | none => rfl
    | some ⟨[]⟩ => rfl
    | some ⟨p :: ps⟩ =>
      simp only [barClickedCountry] at h
      rcases h with h | h <;> simp [update_country_from_bar, h]
  · intro h
    match cd with
    | none => rfl
    | some ⟨[]⟩ => rfl
    | some ⟨p :: ps⟩ =>
      simp only [treemapClickedSector] at h
      rcases h with h | h <;> simp [update_sector_from_treemap, h]

theorem C9_witness :
    update_country_from_map (some ⟨[]⟩) (some ["USA"]) = .noUpdate ∧
    update_country_from_bar (some ⟨[]⟩) (some ["USA"]) = .noUpdate ∧
    update_sector_from_treemap
        (some ⟨[{ id := some "", label := some "", text := none }]⟩)
        (some ["Energy"]) = .noUpdate :=
  ⟨(C9_malformed_click_noop (some ⟨[]⟩) (some ["USA"]) (some ["Energy"])).1
      (Or.inl rfl),
    (C9_malformed_click_noop (some ⟨[]⟩) (some ["USA"]) (some ["Energy"])).2.1
      (Or.inl rfl),
    (C9_malformed_click_noop
        (some ⟨[{ id := some "", label := some "", text := none }]⟩)
        (some ["USA"]) (some ["Energy"])).2.2.1 (Or.inl (by decide))⟩

/-- One conditional filtering step produces a sublist. -/
theorem condFilter_sublist (l : List Record) (b : Bool) (p : Record → Bool) :
    List.Sublist (if b then l.filter p else l) l := by
  split
  · exact List.filter_sublist l
  · exact List.Sublist.refl l

/-- The filtered subset is a sublist of the dataset. -/
theorem applyFilters_sublist (df : List Record) (fs : FilterState) :
    List.Sublist (applyFilters df fs) df := by
  unfold applyFilters
  exact (condFilter_sublist _ _ _).trans ((condFilter_sublist _ _ _).trans
    ((condFilter_sublist _ _ _).trans (condFilter_sublist _ _ _)))

/-- Rounding to 3 decimals is monotone. -/
theorem round3_mono {x y : ℚ} (h : x ≤ y) : round3 x ≤ round3 y := by
  unfold round3
  have h2 : round (x * 1000) ≤ round (y * 1000) := by
    rw [round_eq, round_eq]
    exact Int.floor_mono (by linarith)
  have h3 : ((round (x * 1000) : ℤ) : ℚ) ≤ ((round (y * 1000) : ℤ) : ℚ) := by
    exact_mod_cast h2
  exact (div_le_div_iff_of_pos_right (by norm_num)).mpr h3

/-- **C8** With non-negative emissions, the total of any filtered subset is
at most the total of the unfiltered dataset. -/
theorem C8_filtered_total_le (df : List Record) (fs : FilterState)
    (h : ∀ r ∈ df, 0 ≤ r.emissions) :
    (recompute df fs).totalEmissions ≤
      (recompute df ⟨none, none, none, none⟩).totalEmissions := by
  rw [recompute_totalEmissions, recompute_totalEmissions, applyFilters_none]
  unfold totalEmissions
  apply round3_mono
  unfold sumEmissions
  apply List.Sublist.sum_le_sum ((applyFilters_sublist df fs).map Record.emissions)
  intro a ha
  rcases List.mem_map.mp ha with ⟨r, hr, rfl⟩
  exact h r hr

theorem C8_witness :
    (∀ r ∈ [(⟨"USA", 2020, "Energy", "Power", 10⟩ : Record),
        ⟨"China", 2020, "Energy", "Power", 20⟩], 0 ≤ r.emissions) ∧
    (recompute [⟨"USA", 2020, "Energy", "Power", 10⟩,
        ⟨"China", 2020, "Energy", "Power", 20⟩]
        ⟨some ["USA"], none, none, none⟩).totalEmissions ≤
      (recompute [⟨"USA", 2020, "Energy", "Power", 10⟩,
          ⟨"China", 2020, "Energy", "Power", 20⟩]
          ⟨none, none, none, none⟩).totalEmissions :=
  ⟨by decide, C8_filtered_total_le _ ⟨some ["USA"], none, none, none⟩ (by decide)⟩

/-- **C4** Trend selection policy: exactly one selected country gives that
country's yearly totals over the filtered subset; two or more give yearly
totals grouped by (year, country); zero (an empty or absent selection)
gives global yearly totals over the filtered subset. -/
theorem C4_trend_policy (df : List Record) (fs : FilterState) :
    (fs.countries.vals.length = 1 →
      (recompute df fs).trend = .byYear (groupYearSum ((applyFilters df fs).filter
        (fun r => decide (r.country = fs.countries.vals.headD ""))))) ∧
    (1 < fs.countries.vals.length →
      (recompute df fs).trend = .byYearCountry (groupYearCountrySum
        ((applyFilters df fs).filter
          (fun r => decide (r.country ∈ fs.countries.vals))))) ∧
    (fs.countries.vals = [] →
      (recompute df fs).trend = .byYear (groupYearSum (applyFilters df fs))) := by
  rw [recompute_trend]
  refine ⟨fun h => ?_, fun h => ?_, fun h => ?_⟩
  · have ha : fs.countries.active = true := (Selection.active_iff _).mpr
      (by intro hnil; rw [hnil] at h; exact absurd h (by decide))
    simp [trendSeries, ha, h]
  · have ha : fs.countries.active = true := (Selection.active_iff _).mpr
      (by intro hnil; rw [hnil] at h; exact absurd h (by decide))
    have h1 : fs.countries.vals.length ≠ 1 := by omega
    simp [trendSeries, ha, h, h1]
  · have ha : fs.countries.active = false := by
      rw [← Bool.not_eq_true]
      intro hc
      exact absurd h ((Selection.active_iff _).mp hc)
    simp [trendSeries, ha]

theorem C4_witness :
    (Selection.vals (some ["USA"]) : List String).length = 1 ∧
    (recompute [⟨"USA", 2020, "Energy", "Power", 10⟩,
        ⟨"China", 2020, "Energy", "Power", 20⟩]
        ⟨some ["USA"], none, none, none⟩).trend =
      .byYear (groupYearSum ((applyFilters
        [⟨"USA", 2020, "Energy", "Power", 10⟩,
          ⟨"China", 2020, "Energy", "Power", 20⟩]
        ⟨some ["USA"], none, none, none⟩).filter
          (fun r => decide (r.country =
            (Selection.vals (some ["USA"]) : List String).headD "")))) :=
  ⟨by decide, (C4_trend_policy [⟨"USA", 2020, "Energy", "Power", 10⟩,
    ⟨"China", 2020, "Energy", "Power", 20⟩]
    ⟨some ["USA"], none, none, none⟩).1 (by decide)⟩

/-- The descending Emissions comparator is transitive. -/
theorem desc_trans (a b c : String × ℚ) :
    decide (b.2 ≤ a.2) = true → decide (c.2 ≤ b.2) = true →
      decide (c.2 ≤ a.2) = true := by
  simp only [decide_eq_true_iff]
  exact fun h1 h2 => h2.trans h1

/-- The descending Emissions comparator is total. -/
theorem desc_total (a b : String × ℚ) :
    (decide (b.2 ≤ a.2) || decide (a.2 ≤ b.2)) = true := by
  rcases le_total b.2 a.2 with h | h <;> simp [h]

/-- The first components of the per-country aggregate are the sorted
distinct countries. -/
theorem groupCountrySum_keys (df : List Record) :
    (groupCountrySum df).map Prod.fst =
      ((df.map Record.country).dedup).mergeSort (fun a b => decide (a ≤ b)) := by
  unfold groupCountrySum
  rw [List.map_map]
  exact List.map_id _

/-- The per-country aggregate has pairwise-distinct rows. -/
theorem groupCountrySum_nodup (df : List Record) : (groupCountrySum df).Nodup := by
  have hk : (((df.map Record.country).dedup).mergeSort
      (fun a b => decide (a ≤ b))).Nodup :=
    ((List.mergeSort_perm _ _).nodup_iff).mpr (List.nodup_dedup _)
  unfold groupCountrySum
  exact hk.map (fun a b h => congrArg Prod.fst h)

/-- Each aggregate row's value is the Emissions sum of its country. -/
theorem groupCountrySum_snd (df : List Record) (p : String × ℚ)
    (hp : p ∈ groupCountrySum df) :
    p.2 = sumEmissions (df.filter (fun r => decide (r.country = p.1))) := by
  unfold groupCountrySum at hp
  rcases List.mem_map.mp hp with ⟨c, _, rfl⟩
  rfl

/-- A country occurs among the aggregate keys iff some record has it. -/
theorem groupCountrySum_keys_iff (df : List Record) (c : String) :
    c ∈ (groupCountrySum df).map Prod.fst ↔ ∃ r ∈ df, r.country = c := by
  rw [groupCountrySum_keys, List.mem_mergeSort, List.mem_dedup, List.mem_map]

/-- A two-element sublist of a duplicate-free list survives `take` as soon
as its later element does. -/
theorem pair_sublist_take {α : Type} {a b : α} :
    ∀ (l : List α) (n : ℕ), l.Nodup → List.Sublist [a, b] l → b ∈ l.take n →
      List.Sublist [a, b] (l.take n) := by
  intro l
  induction l with
  | nil => intro n _ _ hb; simp at hb
  | cons x xs ih =>
    intro n hnd hs hb
    cases n with
    | zero => simp at hb
    | succ m =>
      rw [List.take_succ_cons] at hb ⊢
      rcases List.nodup_cons.mp hnd with ⟨hx, hxs⟩
      cases hs with
      | cons _ hs' =>
        have hbxs : b ∈ xs := hs'.subset (by simp)
        have hb' : b ∈ xs.take m := by
          rcases List.mem_cons.mp hb with hbx | hbt
          · exact absurd (hbx ▸ hbxs) hx
          · exact hbt
        exact (ih m hxs hs' hb').cons x
      | cons₂ _ hs' =>
        have hbxs : b ∈ xs := hs'.subset (by simp)
        have hb' : b ∈ xs.take m := by
          rcases List.mem_cons.mp hb with hbx | hbt
          · exact absurd (hbx ▸ hbxs) hx
          · exact hbt
        exact (List.singleton_sublist.mpr hb').cons₂ a

/-- **C3** The top-10 aggregate is exactly the 10 (or all, if fewer)
countries with the largest per-country Emissions totals over the filtered
subset, in descending order of total, ties kept in the input order of the
per-country aggregation; and that aggregation pairs each occurring country
(exactly once) with its summed Emissions. -/
theorem C3_top10 (df : List Record) (fs : FilterState) :
    ((recompute df fs).top10.length = min 10 (recompute df fs).mapAgg.length) ∧
    (recompute df fs).top10.Pairwise (fun p q => q.2 ≤ p.2) ∧
    (∀ p ∈ (recompute df fs).top10, p ∈ (recompute df fs).mapAgg) ∧
    (∀ q ∈ (recompute df fs).mapAgg, q ∉ (recompute df fs).top10 →
      ∀ p ∈ (recompute df fs).top10, q.2 ≤ p.2) ∧
    (∀ a b : String × ℚ, List.Sublist [a, b] (recompute df fs).mapAgg →
      b.2 ≤ a.2 → b ∈ (recompute df fs).top10 →
      List.Sublist [a, b] (recompute df fs).top10) ∧
    (∀ p ∈ (recompute df fs).mapAgg,
      p.2 = sumEmissions ((applyFilters df fs).filter
        (fun r => decide (r.country = p.1)))) ∧
    (∀ c : String, c ∈ (recompute df fs).mapAgg.map Prod.fst ↔
      ∃ r ∈ applyFilters df fs, r.country = c) ∧
    ((recompute df fs).mapAgg.map Prod.fst).Nodup := by
  rw [recompute_top10, recompute_mapAgg]
  have hms : nlargestEmissions 10 (groupCountrySum (applyFilters df fs)) =
      ((groupCountrySum (applyFilters df fs)).mergeSort
        (fun a b => decide (b.2 ≤ a.2))).take 10 := rfl
  rw [hms]
  set m := groupCountrySum (applyFilters df fs) with hm
  set s := m.mergeSort (fun a b => decide (b.2 ≤ a.2)) with hsdef
  have hsorted : s.Pairwise (fun p q : String × ℚ => q.2 ≤ p.2) :=
    (List.sorted_mergeSort desc_trans desc_total m).imp
      (fun h => of_decide_eq_true h)
  have hnodup : s.Nodup :=
    ((List.mergeSort_perm m _).nodup_iff).mpr (groupCountrySum_nodup _)
  refine ⟨?_, ?_, ?_, ?_, ?_, ?_, ?_, ?_⟩
  · rw [List.length_take, hsdef, List.length_mergeSort]
  · exact List.Pairwise.sublist (List.take_sublist 10 s) hsorted
  · intro p hp
    exact List.mem_mergeSort.mp (List.take_subset 10 s hp)
  · intro q hq hqt p hp
    have hqs : q ∈ s := List.mem_mergeSort.mpr hq
    rcases List.mem_append.mp ((List.take_append_drop 10 s) ▸ hqs) with ht | hd
    · exact absurd ht hqt
    · have hpair := (List.take_append_drop 10 s) ▸ hsorted
      exact (List.pairwise_append.mp hpair).2.2 p hp q hd
  · intro a b hab hle hbt
    have hs1 : List.Sublist [a, b] s :=
      List.pair_sublist_mergeSort desc_trans desc_total (decide_eq_true hle) hab
    exact pair_sublist_take s 10 hnodup hs1 hbt
  · exact groupCountrySum_snd _
  · exact groupCountrySum_keys_iff _
  · rw [hm, groupCountrySum_keys]
    exact ((List.mergeSort_perm _ _).nodup_iff).mpr (List.nodup_dedup _)

theorem C3_witness :
    (recompute [⟨"USA", 2020, "Energy", "Power", 10⟩,
        ⟨"USA", 2020, "Energy", "Power", 5⟩,
        ⟨"China", 2020, "Energy", "Power", 20⟩]
        ⟨none, none, none, none⟩).top10.length =
      min 10 (recompute [⟨"USA", 2020, "Energy", "Power", 10⟩,
        ⟨"USA", 2020, "Energy", "Power", 5⟩,
        ⟨"China", 2020, "Energy", "Power", 20⟩]
        ⟨none, none, none, none⟩).mapAgg.length :=
  (C3_top10 [⟨"USA", 2020, "Energy", "Power", 10⟩,
    ⟨"USA", 2020, "Energy", "Power", 5⟩,
    ⟨"China", 2020, "Energy", "Power", 20⟩] ⟨none, none, none, none⟩).1

end CarbonDash
